import Mathlib

/-!
# Verification of the AiEmailSummary ingestion-and-summarization pipeline

Shallow embedding of the core pipeline of the `ai-email-summar` repository:

* `aiesvc/storage.py` — idempotency store (`has_processed`, `mark_processed`)
  and the append-only daily summary log (`update_daily_summary`);
* `aiesvc/parser.py` — body extraction (`extract_body_text`), body selection
  in `parse_email`, and token-aware truncation (`smart_truncate_by_token`);
* `aiesvc/summarizer.py` — `SummarizerProvider.summarize_email` retry loop;
* `aiesvc/mailbox.py` — `reconnect_if_needed` / `search_unseen_uids`;
* `AiEmailSummary.py` — `process_single_email` and `run_once`;
* `aiesvc/runner.py` — the `Runner` state machine and one iteration of
  `_run_loop`.

External collaborators (the IMAP server, the `email` MIME decoder, the
`html2text` converter, the `tiktoken` tokenizer, `hashlib.sha256`, the HTTP
endpoint and the wall clock) are modelled as explicit parameters: the control
flow around them is translated from the source.  Machine strings stay Lean
`String`s; token sequences are `List Nat` (token ids); SQLite's
`processed_emails` table is a list of rows whose `PRIMARY KEY (mailbox, uid)`
constraint is reflected in `mark_processed`.
-/

namespace AiEmailSummary

/-! ## Storage: `aiesvc/storage.py` -/

/-- One row of the `processed_emails` SQLite table
(`aiesvc/storage.py`, `_ensure_db_and_table`). -/
structure ProcessedRecord where
  uid : String
  mailbox : String
  message_id : Option String
  processed_at : String
  summary_hash : String
  deriving Repr, DecidableEq

/-- `StorageManager.has_processed`: point lookup by `(uid, mailbox)`
(`aiesvc/storage.py` lines 44–54). -/
def has_processed (store : List ProcessedRecord) (uid : String)
    (mailbox : String) : Bool :=
  store.any (fun r => r.uid == uid && r.mailbox == mailbox)

/-- `StorageManager.mark_processed` (`aiesvc/storage.py` lines 56–78):
attempts `INSERT INTO processed_emails ...`; the `PRIMARY KEY (mailbox, uid)`
constraint raises `sqlite3.IntegrityError` when a row with the same key
exists, which the code catches and logs as a warning, leaving the table
unchanged.  `sha256` models `hashlib.sha256(...).hexdigest()` and `now` models
`datetime.datetime.now().isoformat()`. -/
def mark_processed (sha256 : String → String) (now : String)
    (store : List ProcessedRecord) (uid : String) (message_id : Option String)
    (summary_text : String) (mailbox : String) : List ProcessedRecord :=
  if has_processed store uid mailbox then
    store
  else
    store ++ [⟨uid, mailbox, message_id, now, sha256 summary_text⟩]

/-- One block appended to the current day's summary file by
`StorageManager.update_daily_summary` (`aiesvc/storage.py`). -/
structure SummaryEntry where
  subject : String
  from_addr : String
  date : String
  summary_text : String
  deriving Repr, DecidableEq

/-- Invariant of the `processed_emails` table: at most one row per composite
key `(mailbox, uid)` — exactly what `PRIMARY KEY (mailbox, uid)` enforces. -/
def AtMostOnePerKey (store : List ProcessedRecord) : Prop :=
  store.Pairwise (fun a b => ¬ (a.mailbox = b.mailbox ∧ a.uid = b.uid))

/-! ## Token-aware truncation: `aiesvc/parser.py` -/

/-- `MAX_TOKENS` (`aiesvc/parser.py` line 14). -/
def MAX_TOKENS : Nat := 4096

/-- `REPLY_TOKEN_RESERVE` (`aiesvc/parser.py` line 16). -/
def REPLY_TOKEN_RESERVE : Nat := 512

/-- `MAX_BODY_TOKENS = MAX_TOKENS - REPLY_TOKEN_RESERVE - 100`
(`aiesvc/parser.py` line 18); evaluates to 3484. -/
def MAX_BODY_TOKENS : Nat := MAX_TOKENS - REPLY_TOKEN_RESERVE - 100

/-- Python's `l[-k:]` slice on a list: the last `k` elements, except that
`l[-0:]` is the whole list. -/
def pySliceLast {α : Type} (l : List α) (k : Nat) : List α :=
  if k = 0 then l else l.drop (l.length - k)

/-- `smart_truncate_by_token` (`aiesvc/parser.py` lines 122–161), on the
`ENCODER` path, stated over token sequences: the source encodes `text` to
`tokens`, and on overflow decodes `tokens[:half_tokens]` and
`tokens[-half_tokens:]` and joins them with the literal truncation marker.
`marker` is the token sequence of the marker string
`"\n\n... [邮件正文因过长被智能截断] ...\n\n"`. -/
def smart_truncate_by_token (marker : List Nat) (tokens : List Nat)
    (max_tokens : Nat) : List Nat :=
  if tokens.length ≤ max_tokens then
    tokens
  else
    let half_tokens := max_tokens / 2
    tokens.take half_tokens ++ marker ++ pySliceLast tokens half_tokens

/-! ## Body extraction and selection: `aiesvc/parser.py` -/

/-- One MIME body part as seen by `extract_body_text`'s `msg.walk()` loop:
its content type, its `Content-Disposition` header (stringified), and the
result of `part.get_payload(decode=True)` decoded with the part charset
(`none` models a missing payload or a decode exception, both of which make
the loop `continue`). -/
structure MimePart where
  ctype : String
  content_disposition : String
  payload : Option String
  deriving Repr, DecidableEq

/-- Python `str.lower()` (ASCII-relevant part), character by character. -/
def pyLower (s : String) : String :=
  ⟨s.data.map Char.toLower⟩

/-- Python `str.startswith(pre)`. -/
def pyStartsWith (s pre : String) : Bool :=
  s.data.take pre.data.length == pre.data

/-- Python `str.strip()`: drop whitespace from both ends. -/
def pyStrip (s : String) : String :=
  ⟨((s.data.dropWhile Char.isWhitespace).reverse.dropWhile
      Char.isWhitespace).reverse⟩

/-- The attachment test of `extract_body_text`:
`cdispo.lower().startswith("attachment")`. -/
def isAttachment (p : MimePart) : Bool :=
  pyStartsWith (pyLower p.content_disposition) "attachment"

/-- The accumulation loop of `extract_body_text` (`aiesvc/parser.py`
lines 46–95), multipart branch: attachment parts are skipped, undecodable
parts are skipped, each `text/plain` payload is appended to the plain
accumulator followed by `"\n"`, each `text/html` payload to the HTML
accumulator followed by `"\n"`. -/
def extract_body_step (acc : String × String) (part : MimePart) :
    String × String :=
  if isAttachment part then acc
  else
    match part.payload with
    | none => acc
    | some text =>
      if part.ctype == "text/plain" then (acc.1 ++ text ++ "\n", acc.2)
      else if part.ctype == "text/html" then (acc.1, acc.2 ++ text ++ "\n")
      else acc

/-- The accumulated `(plain_text, html_text)` pair of `extract_body_text`'s
`msg.walk()` loop. -/
def extract_body_parts (parts : List MimePart) : String × String :=
  parts.foldl extract_body_step ("", "")

/-- `extract_body_text` returns `(plain_text.strip(), html_text.strip())`. -/
def extract_body_text (parts : List MimePart) : String × String :=
  (pyStrip (extract_body_parts parts).1, pyStrip (extract_body_parts parts).2)

/-- The body-selection step of `parse_email` (`aiesvc/parser.py`
lines 175–180): `body_text = plain_text; if not body_text and html_text:
body_text = html_to_text(html_text)`.  The `html2text` conversion is the
explicit parameter `htmlToText`; the subsequent blank-line normalisation and
truncation apply to the selected text in either branch. -/
def derive_body_text (htmlToText : String → String)
    (parts : List MimePart) : String :=
  let plain_text := (extract_body_text parts).1
  let html_text := (extract_body_text parts).2
  if plain_text = "" ∧ html_text ≠ "" then htmlToText html_text
  else plain_text

/-- The decoded payload of the first non-attachment `text/html` part with a
decodable payload — what the spec's words "the first HTML part" denote. -/
def first_html_payload (parts : List MimePart) : Option String :=
  (parts.find? (fun p =>
      !isAttachment p && p.ctype == "text/html" && p.payload.isSome)).bind
    (fun p => p.payload)

/-- The decodable payloads of the non-attachment `text/html` parts, in
order. -/
def html_payloads (parts : List MimePart) : List String :=
  parts.filterMap (fun p =>
    if isAttachment p then none
    else if p.ctype == "text/html" then p.payload
    else none)

/-! ## Summarizer: `aiesvc/summarizer.py` -/

/-- `MAX_RETRIES` (`aiesvc/summarizer.py` line 13). -/
def MAX_RETRIES : Nat := 3

/-- Outcome of one `requests.post` + `raise_for_status` + `json()` round trip
as `summarize_email` discriminates it: a success with the completion content,
a success whose JSON lacks `choices` (raises a plain `Exception`), an HTTP
error with a status code, or a network error with no response object
(`status_code` is `'N/A'`). -/
inductive ApiResponse
  | ok (content : String)
  | okNoChoices
  | httpErr (status : Nat)
  | netErr
  deriving Repr, DecidableEq

/-- Observable outcome of `summarize_email`: the returned string, the number
of `requests.post` attempts issued, and the list of `time.sleep` durations in
seconds, in order. -/
structure SummOutcome where
  result : String
  attempts : Nat
  sleeps : List Nat
  deriving Repr, DecidableEq

/-- The `for attempt in range(MAX_RETRIES)` loop of `summarize_email`
(`aiesvc/summarizer.py` lines 83–133).  `attempt` is the Python loop index,
`remaining = MAX_RETRIES - attempt` the iterations left, `sleeps` the sleeps
already performed.  Falling off the loop end returns
`"[API 总结失败] 邮件主题: {subject}"`; HTTP 401/403 return the auth-failure
string with no retry; HTTP 429 sleeps `2 ** attempt` and retries; any other
request failure sleeps 1 second and retries unless this was the last attempt;
a response without `choices` returns the response-error string. -/
def summarize_attempts (responses : Nat → ApiResponse) (subject : String) :
    Nat → Nat → List Nat → SummOutcome
  | attempt, 0, sleeps =>
    ⟨"[API 总结失败] 邮件主题: " ++ subject, attempt, sleeps⟩
  | attempt, remaining + 1, sleeps =>
    match responses attempt with
    | .ok content => ⟨content.trim, attempt + 1, sleeps⟩
    | .okNoChoices => ⟨"[API 响应错误] 邮件主题: " ++ subject, attempt + 1, sleeps⟩
    | .httpErr status =>
      if status = 401 ∨ status = 403 then
        ⟨"[API 认证失败] 邮件主题: " ++ subject, attempt + 1, sleeps⟩
      else if status = 429 then
        summarize_attempts responses subject (attempt + 1) remaining
          (sleeps ++ [2 ^ attempt])
      else if attempt < MAX_RETRIES - 1 then
        summarize_attempts responses subject (attempt + 1) remaining
          (sleeps ++ [1])
      else
        ⟨"[API 总结失败] 邮件主题: " ++ subject, attempt + 1, sleeps⟩
    | .netErr =>
      if attempt < MAX_RETRIES - 1 then
        summarize_attempts responses subject (attempt + 1) remaining
          (sleeps ++ [1])
      else
        ⟨"[API 总结失败] 邮件主题: " ++ subject, attempt + 1, sleeps⟩

/-- `SummarizerProvider.summarize_email` (`aiesvc/summarizer.py`): an empty
`DEEPSEEK_API_KEY` makes `_get_api_key` raise, caught to return the
not-configured fallback before any request; otherwise the retry loop runs
with the endpoint's behaviour `responses`. -/
def summarize_email (api_key : String) (subject : String)
    (responses : Nat → ApiResponse) : SummOutcome :=
  if api_key = "" then
    ⟨"[总结服务未配置] " ++ subject, 0, []⟩
  else
    summarize_attempts responses subject 0 MAX_RETRIES []

/-! ## Parsed email and the pipeline environment -/

/-- The dictionary returned by `parse_email` (`aiesvc/parser.py`), restricted
to the fields the pipeline reads. -/
structure EmailData where
  subject : String
  from_addr : String
  date : String
  body_text : String
  message_id : Option String
  uid : String
  deriving Repr, DecidableEq

/-- External collaborators of one pipeline pass, as the source calls them:

* `is_connected`, `noop_ok`, `connect_ok n` — `MailboxManager` state, the
  liveness `noop()` probe, and the outcome of the `n`-th `connect()` attempt
  inside `reconnect_if_needed` (`aiesvc/mailbox.py`);
* `unseen_uids` — what `self.imap.uid('search', None, 'UNSEEN')` reports;
* `fetch_raw uid` — `fetch_email_raw` (raw bytes, `none` on failure);
* `parse raw uid` — `parse_email` (`none` when parsing fails);
* `summarize ed` — `summarizer_provider.summarize_email`;
* `sha256`, `now` — `hashlib.sha256(...).hexdigest()` and
  `datetime.datetime.now().isoformat()`;
* `enable_smtp_notifier` — `config_manager.config.ENABLE_SMTP_NOTIFIER`. -/
structure Env where
  is_connected : Bool
  noop_ok : Bool
  connect_ok : Nat → Bool
  unseen_uids : List String
  fetch_raw : String → Option (List Nat)
  parse : List Nat → String → Option EmailData
  summarize : EmailData → String
  sha256 : String → String
  now : String
  enable_smtp_notifier : Bool

/-- `MailboxManager.reconnect_if_needed` (`aiesvc/mailbox.py`): a live
connection whose `noop()` probe succeeds is kept; otherwise up to 3
`connect()` attempts are made (each followed by a 1-second sleep on failure)
and the call fails only after all 3 fail. -/
def reconnect_if_needed (env : Env) : Bool :=
  if env.is_connected && env.noop_ok then true
  else env.connect_ok 0 || env.connect_ok 1 || env.connect_ok 2

/-- `MailboxManager.search_unseen_uids` (`aiesvc/mailbox.py`): returns `[]`
when `reconnect_if_needed` fails, else the server-reported unseen uids. -/
def search_unseen_uids (env : Env) : List String :=
  if reconnect_if_needed env then env.unseen_uids else []

/-- The durable/appended state a pass touches: the `processed_emails` table,
today's summary log entries in append order, and the uids flagged `\Seen`. -/
structure PipelineState where
  store : List ProcessedRecord
  daily_log : List SummaryEntry
  seen_uids : List String
  deriving Repr, DecidableEq

/-- Instrumentation of a pass: for which uids `summarizer_provider
.summarize_email` was invoked, and for which uids an entry was appended to
the daily summary log, in order. -/
structure Trace where
  summarized_uids : List String
  appended_uids : List String
  deriving Repr, DecidableEq

/-- The empty trace. -/
def Trace.nil : Trace := ⟨[], []⟩

/-- Concatenation of traces. -/
def Trace.append (a b : Trace) : Trace :=
  ⟨a.summarized_uids ++ b.summarized_uids, a.appended_uids ++ b.appended_uids⟩

/-- `process_single_email` (`AiEmailSummary.py` lines 22–72): idempotency
check, fetch, parse, summarize, append to daily log, `mark_processed`,
optional `\Seen` flag.  Returns the success flag, the new state, and the
trace of this call. -/
def process_single_email (env : Env) (st : PipelineState) (uid : String)
    (mark_seen : Bool) : Bool × PipelineState × Trace :=
  if has_processed st.store uid "INBOX" then
    (true, st, Trace.nil)
  else
    match env.fetch_raw uid with
    | none => (false, st, Trace.nil)
    | some raw_email =>
      match env.parse raw_email uid with
      | none => (false, st, Trace.nil)
      | some email_data =>
        let summary_text := env.summarize email_data
        let entry : SummaryEntry :=
          ⟨email_data.subject, email_data.from_addr, email_data.date,
            summary_text⟩
        let st1 : PipelineState :=
          { st with daily_log := st.daily_log ++ [entry] }
        let store2 := mark_processed env.sha256 env.now st1.store uid
          email_data.message_id summary_text "INBOX"
        let st2 : PipelineState := { st1 with store := store2 }
        let st3 : PipelineState :=
          if mark_seen then { st2 with seen_uids := st2.seen_uids ++ [uid] }
          else st2
        (true, st3, ⟨[uid], [uid]⟩)

/-- Per-pass statistics (`run_once`'s `stats` dict, `AiEmailSummary.py`).
`failed_count` is an `Int` because the connection-failure sentinel is `-1`. -/
structure RunStats where
  total_unseen : Nat
  processed_count : Nat
  skipped_count : Nat
  failed_count : Int
  start_time : String
  deriving Repr, DecidableEq

/-- The per-uid loop of `run_once` (`AiEmailSummary.py` lines 107–121):
already-processed uids are counted skipped; otherwise `process_single_email`
is called (with `mark_seen` defaulted to true) and its success increments
`processed_count`, its failure `failed_count`. -/
def run_items (env : Env) :
    List String → PipelineState → RunStats → Trace →
      RunStats × PipelineState × Trace
  | [], st, stats, tr => (stats, st, tr)
  | uid :: rest, st, stats, tr =>
    if has_processed st.store uid "INBOX" then
      run_items env rest st
        { stats with skipped_count := stats.skipped_count + 1 } tr
    else
      let r := process_single_email env st uid true
      let stats1 :=
        if r.1 then { stats with processed_count := stats.processed_count + 1 }
        else { stats with failed_count := stats.failed_count + 1 }
      run_items env rest r.2.1 stats1 (tr.append r.2.2)

/-- `run_once` (`AiEmailSummary.py` lines 74–129).  Returns the stats, the
final state, the pass trace, and whether the SMTP notifier was triggered.
When `reconnect_if_needed` fails the stats keep `total_unseen = 0` and get
`failed_count = -1`; when the unseen list is empty the pass ends after
setting `total_unseen`. -/
def run_once (env : Env) (st : PipelineState) :
    RunStats × PipelineState × Trace × Bool :=
  let stats0 : RunStats := ⟨0, 0, 0, 0, env.now⟩
  if !reconnect_if_needed env then
    ({ stats0 with failed_count := -1 }, st, Trace.nil, false)
  else
    let unseen_uids := search_unseen_uids env
    let stats1 := { stats0 with total_unseen := unseen_uids.length }
    if unseen_uids.isEmpty then
      (stats1, st, Trace.nil, false)
    else
      let r := run_items env unseen_uids st stats1 Trace.nil
      let notified := env.enable_smtp_notifier && r.1.processed_count != 0
      (r.1, r.2.1, r.2.2, notified)

/-! ## Runner: `aiesvc/runner.py` -/

/-- The `Runner` status strings (`aiesvc/runner.py` lines 20–24). -/
inductive RunnerStatus
  | IDLE
  | RUNNING
  | STOPPING
  | ERROR
  deriving Repr, DecidableEq

/-- The mutable fields of `Runner` (`aiesvc/runner.py` `__init__`):
`thread_alive` models `self._thread is not None and self._thread.is_alive()`,
`stop_requested` models `self._stop_event.is_set()`.
`total_failed_count` is an `Int`: the `-1` sentinel is added into it. -/
structure RunnerSt where
  status : RunnerStatus
  thread_alive : Bool
  stop_requested : Bool
  last_run_stats : Option RunStats
  last_success_time : Option String
  total_processed_count : Nat
  total_failed_count : Int
  deriving Repr, DecidableEq

/-- What `Runner.get_status` reports (`aiesvc/runner.py` lines 35–47). -/
structure StatusReport where
  status : RunnerStatus
  is_running : Bool
  last_run_stats : Option RunStats
  last_success_time : Option String
  total_processed_count : Nat
  total_failed_count : Int
  time_gap : Nat
  deriving Repr, DecidableEq

/-- `Runner.get_status` (`aiesvc/runner.py` lines 35–47). -/
def get_status (r : RunnerSt) (time_gap : Nat) : StatusReport :=
  ⟨r.status, r.thread_alive, r.last_run_stats, r.last_success_time,
    r.total_processed_count, r.total_failed_count, time_gap⟩

/-- `Runner.start` (`aiesvc/runner.py` lines 49–63): returns `False` with no
effect unless the status is `IDLE`; otherwise clears the stop event, sets
`RUNNING` and spawns the loop thread. -/
def Runner.start (r : RunnerSt) : Bool × RunnerSt :=
  if r.status != RunnerStatus.IDLE then
    (false, r)
  else
    (true, { r with stop_requested := false,
                    status := RunnerStatus.RUNNING,
                    thread_alive := true })

/-- `Runner.stop` (`aiesvc/runner.py` lines 65–89): returns `False` with no
effect unless the status is `RUNNING`; otherwise sets `STOPPING`, signals the
stop event, joins with a 5-second timeout
(`thread_exits_within_timeout` tells whether the thread exits in time), and
ends in `IDLE` on success or `ERROR` on timeout. -/
def Runner.stop (r : RunnerSt) (thread_exits_within_timeout : Bool) :
    Bool × RunnerSt :=
  if r.status != RunnerStatus.RUNNING then
    (false, r)
  else
    let r1 := { r with status := RunnerStatus.STOPPING, stop_requested := true }
    if thread_exits_within_timeout then
      (true, { r1 with status := RunnerStatus.IDLE, thread_alive := false })
    else
      (false, { r1 with status := RunnerStatus.ERROR })

/-- One iteration of `Runner._run_loop`'s `while` body (`aiesvc/runner.py`
lines 98–130), without the sleep: run `run_once`, add its
`processed_count`/`failed_count` into the cumulative counters, and set the
status to `RUNNING` (recording a success time) when `failed_count >= 0`, to
`ERROR` otherwise.  The body never touches the stop event, so the `while not
self._stop_event.is_set()` condition afterwards is `loop_continues`. -/
def run_loop_iter (env : Env) (r : RunnerSt) (st : PipelineState) :
    RunnerSt × PipelineState :=
  let res := run_once env st
  let stats := res.1
  let r1 := { r with
    last_run_stats := some stats,
    total_processed_count := r.total_processed_count + stats.processed_count,
    total_failed_count := r.total_failed_count + stats.failed_count }
  let r2 :=
    if 0 ≤ stats.failed_count then
      { r1 with last_success_time := some env.now,
                status := RunnerStatus.RUNNING }
    else
      { r1 with status := RunnerStatus.ERROR }
  (r2, res.2.1)

/-- The loop guard of `_run_loop`: the loop proceeds to its next cycle iff
the stop event is not set. -/
def loop_continues (r : RunnerSt) : Bool := !r.stop_requested

/-! ## Theorems -/

/-- C4: `Runner.start()` succeeds only from `IDLE`; a second `start()` while
`RUNNING` returns failure and leaves the runner unchanged (hence still
`RUNNING`); `Runner.stop()` while `IDLE` returns failure and leaves the
runner unchanged. -/
theorem c4_runner_state_machine (r : RunnerSt) (t : Bool) :
    ((Runner.start r).1 = true ↔ r.status = RunnerStatus.IDLE) ∧
    (r.status = RunnerStatus.RUNNING → Runner.start r = (false, r)) ∧
    (r.status = RunnerStatus.IDLE → Runner.stop r t = (false, r)) := by
  by_cases h : r.status = RunnerStatus.IDLE <;>
    simp [Runner.start, Runner.stop, h]

/-- C6: with an API key configured, an endpoint answering HTTP 401 or 403 on
the first attempt makes `summarize_email` return the auth-failure fallback
embedding the subject after exactly 1 attempt, with no backoff sleep. -/
theorem c6_auth_short_circuit (api_key subject : String)
    (responses : Nat → ApiResponse) (hkey : api_key ≠ "")
    (hresp : responses 0 = ApiResponse.httpErr 401 ∨
      responses 0 = ApiResponse.httpErr 403) :
    summarize_email api_key subject responses =
      ⟨"[API 认证失败] 邮件主题: " ++ subject, 1, []⟩ := by
  rcases hresp with h | h <;>
    simp [summarize_email, hkey, MAX_RETRIES, summarize_attempts, h]

/-- C7: with an API key configured, an endpoint answering HTTP 429 on every
attempt makes `summarize_email` perform exactly 3 attempts, sleep
`2 ^ attempt` seconds after each 429 (so the backoff between attempts is
`2^0` then `2^1` seconds, total sleep at least 3 seconds), and return the
terminal fallback embedding the subject. -/
theorem c7_retry_termination (api_key subject : String)
    (responses : Nat → ApiResponse) (hkey : api_key ≠ "")
    (hresp : ∀ n, responses n = ApiResponse.httpErr 429) :
    summarize_email api_key subject responses =
      ⟨"[API 总结失败] 邮件主题: " ++ subject, 3, [2 ^ 0, 2 ^ 1, 2 ^ 2]⟩ ∧
    3 ≤ (summarize_email api_key subject responses).sleeps.sum := by
  have h : summarize_email api_key subject responses =
      ⟨"[API 总结失败] 邮件主题: " ++ subject, 3, [2 ^ 0, 2 ^ 1, 2 ^ 2]⟩ := by
    simp [summarize_email, hkey, MAX_RETRIES, summarize_attempts,
      hresp 0, hresp 1, hresp 2]
  exact ⟨h, by rw [h]; simp⟩

/-- C10: after a pass that could not establish connectivity, the cumulative
`total_failed_count` reported by `get_status` is one less than before the
pass: the `-1` sentinel is added into the counter, so the counter is not
monotonically non-decreasing. -/
theorem c10_sentinel_decrements_cumulative (env : Env) (st : PipelineState)
    (r : RunnerSt) (tg : Nat) (hconn : reconnect_if_needed env = false) :
    (get_status (run_loop_iter env r st).1 tg).total_failed_count =
      (get_status r tg).total_failed_count - 1 ∧
    (get_status (run_loop_iter env r st).1 tg).total_failed_count <
      (get_status r tg).total_failed_count := by
  have h : (run_loop_iter env r st).1.total_failed_count =
      r.total_failed_count - 1 := by
    simp [run_loop_iter, run_once, hconn]
    omega
  constructor
  · simpa [get_status] using h
  · simp only [get_status]
    omega

/-- C5: when the liveness probe cannot keep the connection and all 3
`connect()` attempts inside `reconnect_if_needed` fail, `run_once` returns
stats with `total_unseen = 0` and the sentinel `failed_count = -1` (a
negative value, not a normal count), `search_unseen_uids` yields `[]`, the
runner iteration transitions to `ERROR`, and the loop guard still lets the
loop proceed to the next cycle. -/
theorem c5_connectivity_failure (env : Env) (st : PipelineState)
    (r : RunnerSt) (hlive : env.is_connected = false ∨ env.noop_ok = false)
    (hconn : ∀ n, env.connect_ok n = false)
    (hstop : r.stop_requested = false) :
    reconnect_if_needed env = false ∧
    (run_once env st).1.total_unseen = 0 ∧
    (run_once env st).1.failed_count = -1 ∧
    (run_once env st).1.failed_count < 0 ∧
    search_unseen_uids env = [] ∧
    (run_loop_iter env r st).1.status = RunnerStatus.ERROR ∧
    loop_continues (run_loop_iter env r st).1 = true := by
  have hre : reconnect_if_needed env = false := by
    rcases hlive with h | h <;>
      simp [reconnect_if_needed, h, hconn 0, hconn 1, hconn 2]
  refine ⟨hre, ?_, ?_, ?_, ?_, ?_, ?_⟩ <;>
    simp [run_once, hre, search_unseen_uids, run_loop_iter, loop_continues,
      hstop]

/-- C2: with the budget `B = MAX_BODY_TOKENS`, token sequences of length at
most `B` pass through `smart_truncate_by_token` unchanged; longer ones
produce exactly the first `B / 2` tokens, the truncation marker, and the last
`B / 2` tokens, so the output length is at most `B + marker.length`, the
output's first `B / 2` tokens are the original's first `B / 2` tokens, and
its last `B / 2` tokens are the original's last `B / 2` tokens. -/
theorem c2_truncation_bound (marker tokens : List Nat) :
    (tokens.length ≤ MAX_BODY_TOKENS →
      smart_truncate_by_token marker tokens MAX_BODY_TOKENS = tokens) ∧
    (MAX_BODY_TOKENS < tokens.length →
      smart_truncate_by_token marker tokens MAX_BODY_TOKENS =
        tokens.take (MAX_BODY_TOKENS / 2) ++ marker ++
          pySliceLast tokens (MAX_BODY_TOKENS / 2) ∧
      (smart_truncate_by_token marker tokens MAX_BODY_TOKENS).length ≤
        MAX_BODY_TOKENS + marker.length ∧
      (smart_truncate_by_token marker tokens MAX_BODY_TOKENS).take
          (MAX_BODY_TOKENS / 2) = tokens.take (MAX_BODY_TOKENS / 2) ∧
      pySliceLast (smart_truncate_by_token marker tokens MAX_BODY_TOKENS)
          (MAX_BODY_TOKENS / 2) = pySliceLast tokens (MAX_BODY_TOKENS / 2)) := by
  have hB : MAX_BODY_TOKENS = 3484 := rfl
  constructor
  · intro hle
    simp [smart_truncate_by_token, hle]
  · intro hgt
    have hnle : ¬ tokens.length ≤ MAX_BODY_TOKENS := by omega
    have hhalf : MAX_BODY_TOKENS / 2 = 1742 := by norm_num [hB]
    have heq : smart_truncate_by_token marker tokens MAX_BODY_TOKENS =
        tokens.take 1742 ++ marker ++ pySliceLast tokens 1742 := by
      simp only [smart_truncate_by_token, hnle, if_false, hhalf]
    have htake : (tokens.take 1742).length = 1742 := by
      rw [List.length_take]
      omega
    have hlast : pySliceLast tokens 1742 =
        tokens.drop (tokens.length - 1742) := by
      simp [pySliceLast]
    have hlastlen : (pySliceLast tokens 1742).length = 1742 := by
      rw [hlast, List.length_drop]
      omega
    refine ⟨by rw [heq, hhalf], ?_, ?_, ?_⟩
    · rw [heq]
      simp only [List.length_append, htake, hlastlen, hB]
      omega
    · rw [heq, hhalf, List.append_assoc, List.take_left' htake]
    · rw [heq, hhalf]
      have h1742 : (1742 : Nat) ≠ 0 := by omega
      rw [pySliceLast, if_neg h1742]
      rw [show (tokens.take 1742 ++ marker ++ pySliceLast tokens 1742).length -
            1742 = (tokens.take 1742 ++ marker).length by
          simp only [List.length_append, htake, hlastlen]
          omega]
      exact List.drop_left _ _

/-- C3: the `processed_emails` store keeps at most one row per composite key
`(mailbox, uid)`: `mark_processed` on an existing key rejects the insert and
leaves the store unchanged, it preserves the at-most-one-row-per-key
invariant, every existing row survives it untouched, and its only possible
effect is appending one new row. -/
theorem c3_store_at_most_one_per_key (sha256 : String → String) (now : String)
    (store : List ProcessedRecord) (uid : String) (message_id : Option String)
    (summary_text mailbox : String) :
    (has_processed store uid mailbox = true →
      mark_processed sha256 now store uid message_id summary_text mailbox =
        store) ∧
    (AtMostOnePerKey store →
      AtMostOnePerKey
        (mark_processed sha256 now store uid message_id summary_text
          mailbox)) ∧
    (∀ r ∈ store,
      r ∈ mark_processed sha256 now store uid message_id summary_text
        mailbox) ∧
    (mark_processed sha256 now store uid message_id summary_text mailbox =
        store ∨
      ∃ nr, mark_processed sha256 now store uid message_id summary_text
        mailbox = store ++ [nr]) := by
  by_cases h : has_processed store uid mailbox
  · simp [mark_processed, h]
  · have hno : ∀ r ∈ store, ¬ (r.uid = uid ∧ r.mailbox = mailbox) := by
      intro r hr
      simp only [has_processed, List.any_eq_true, Bool.and_eq_true,
        beq_iff_eq] at h
      intro ⟨h1, h2⟩
      exact h ⟨r, hr, h1, h2⟩
    refine ⟨fun ht => absurd ht h, ?_, ?_, ?_⟩
    · intro hinv
      simp only [mark_processed, h, if_false, Bool.false_eq_true]
      unfold AtMostOnePerKey at hinv ⊢
      rw [List.pairwise_append]
      refine ⟨hinv, by simp, ?_⟩
      intro a ha b hb
      simp only [List.mem_singleton] at hb
      subst hb
      intro ⟨h1, h2⟩
      exact hno a ha ⟨h2, h1⟩
    · intro r hr
      simp [mark_processed, h, hr]
    · right
      exact ⟨⟨uid, mailbox, message_id, now, sha256 summary_text⟩,
        by simp [mark_processed, h]⟩

/-- `mark_processed` never removes a key: a processed key stays processed. -/
lemma has_processed_mark_processed (sha256 : String → String) (now : String)
    (store : List ProcessedRecord) (uid : String) (message_id : Option String)
    (summary_text mailbox : String) (x xmb : String)
    (h : has_processed store x xmb = true) :
    has_processed
      (mark_processed sha256 now store uid message_id summary_text mailbox)
      x xmb = true := by
  unfold mark_processed
  split
  · exact h
  · simp only [has_processed, List.any_append, Bool.or_eq_true]
    exact Or.inl h

/-- `process_single_email` never removes a key from the store. -/
lemma process_single_email_preserves_processed (env : Env)
    (st : PipelineState) (uid : String) (mark_seen : Bool) (x xmb : String)
    (h : has_processed st.store x xmb = true) :
    has_processed (process_single_email env st uid mark_seen).2.1.store x xmb
      = true := by
  unfold process_single_email
  by_cases h0 : has_processed st.store uid "INBOX"
  · simpa [h0] using h
  · simp only [h0, Bool.false_eq_true, if_false]
    cases hf : env.fetch_raw uid with
    | none => simpa using h
    | some raw =>
      simp only [hf]
      cases hp : env.parse raw uid with
      | none => simp only [hp]; exact h
      | some email_data =>
        simp only [hp]
        cases mark_seen <;>
          simpa using has_processed_mark_processed _ _ _ _ _ _ _ _ _ h

/-- The trace of a single `process_single_email` call mentions no uid other
than the one it was called on. -/
lemma process_single_email_trace (env : Env) (st : PipelineState)
    (uid : String) (mark_seen : Bool) (x : String) (hne : x ≠ uid) :
    x ∉ (process_single_email env st uid mark_seen).2.2.summarized_uids ∧
    x ∉ (process_single_email env st uid mark_seen).2.2.appended_uids := by
  unfold process_single_email
  by_cases h0 : has_processed st.store uid "INBOX"
  · simp [h0, Trace.nil]
  · simp only [h0, Bool.false_eq_true, if_false]
    cases hf : env.fetch_raw uid with
    | none => simp [Trace.nil]
    | some raw =>
      simp only [hf]
      cases hp : env.parse raw uid with
      | none => simp [hp, Trace.nil]
      | some email_data =>
        simp only [hp]
        cases mark_seen <;> simp [hne]

/-- Invariant of the per-uid loop of `run_once`: a uid that is already in the
store when the loop starts is never summarized, never gets a daily-log entry,
and is still in the store when the loop ends. -/
lemma run_items_idempotent (env : Env) (uids : List String)
    (st : PipelineState) (stats : RunStats) (tr : Trace) (x : String)
    (hp : has_processed st.store x "INBOX" = true)
    (hs : x ∉ tr.summarized_uids) (ha : x ∉ tr.appended_uids) :
    has_processed (run_items env uids st stats tr).2.1.store x "INBOX" = true ∧
    x ∉ (run_items env uids st stats tr).2.2.summarized_uids ∧
    x ∉ (run_items env uids st stats tr).2.2.appended_uids := by
  induction uids generalizing st stats tr with
  | nil => exact ⟨hp, hs, ha⟩
  | cons uid rest ih =>
    by_cases h0 : has_processed st.store uid "INBOX"
    · simp only [run_items, h0, if_true]
      exact ih st _ tr hp hs ha
    · have hne : x ≠ uid := fun he => h0 (he ▸ hp)
      simp only [run_items, h0, Bool.false_eq_true, if_false]
      have htr := process_single_email_trace env st uid true x hne
      refine ih _ _ _
        (process_single_email_preserves_processed env st uid true x _ hp)
        ?_ ?_ <;>
        simp [Trace.append, hs, ha, htr.1, htr.2]

/-- C1: a message id already recorded as processed for mailbox `INBOX` is
untouched by a pass over a list of unseen ids containing it: the summarizer
is not called for it, no daily-log entry is appended for it, and
`has_processed` for it is true before and after the pass. -/
theorem c1_idempotent_pass (env : Env) (st : PipelineState) (uid : String)
    (_hmem : uid ∈ env.unseen_uids)
    (hp : has_processed st.store uid "INBOX" = true) :
    has_processed st.store uid "INBOX" = true ∧
    uid ∉ (run_once env st).2.2.1.summarized_uids ∧
    uid ∉ (run_once env st).2.2.1.appended_uids ∧
    has_processed (run_once env st).2.1.store uid "INBOX" = true := by
  refine ⟨hp, ?_⟩
  unfold run_once
  by_cases hc : reconnect_if_needed env
  · simp only [hc, Bool.not_true, Bool.false_eq_true, if_false]
    by_cases he : (search_unseen_uids env).isEmpty
    · simpa [he, Trace.nil] using hp
    · simp only [he, Bool.false_eq_true, if_false]
      have := run_items_idempotent env (search_unseen_uids env) st
        { total_unseen := (search_unseen_uids env).length,
          processed_count := 0, skipped_count := 0, failed_count := 0,
          start_time := env.now }
        Trace.nil uid hp (by simp [Trace.nil]) (by simp [Trace.nil])
      exact ⟨this.2.1, this.2.2, this.1⟩
  · simpa [hc, Trace.nil] using hp

/-- C8: with connectivity up, unseen ids `["101", "102"]`, `"101"` already
recorded for mailbox `INBOX`, and `"102"` fetching, parsing and summarizing
successfully, the pass reports `totalUnseen = 2`, `processedCount = 1`,
`skippedCount = 1`, `failedCount = 0`, appends exactly one row (for `"102"`)
to the processed store, and appends exactly one entry (for `"102"`) to the
daily summary log. -/
theorem c8_two_uid_scenario (env : Env) (st : PipelineState) (raw : List Nat)
    (ed : EmailData) (hconn : reconnect_if_needed env = true)
    (huids : env.unseen_uids = ["101", "102"])
    (h101 : has_processed st.store "101" "INBOX" = true)
    (h102 : has_processed st.store "102" "INBOX" = false)
    (hfetch : env.fetch_raw "102" = some raw)
    (hparse : env.parse raw "102" = some ed) :
    (run_once env st).1 = ⟨2, 1, 1, 0, env.now⟩ ∧
    (run_once env st).2.1.store = st.store ++
      [⟨"102", "INBOX", ed.message_id, env.now,
        env.sha256 (env.summarize ed)⟩] ∧
    (run_once env st).2.1.daily_log = st.daily_log ++
      [⟨ed.subject, ed.from_addr, ed.date, env.summarize ed⟩] := by
  have hsearch : search_unseen_uids env = ["101", "102"] := by
    simp [search_unseen_uids, hconn, huids]
  have hrun : run_items env ["101", "102"] st
      ⟨2, 0, 0, 0, env.now⟩ Trace.nil =
      (⟨2, 1, 1, 0, env.now⟩,
        { store := st.store ++
            [⟨"102", "INBOX", ed.message_id, env.now,
              env.sha256 (env.summarize ed)⟩],
          daily_log := st.daily_log ++
            [⟨ed.subject, ed.from_addr, ed.date, env.summarize ed⟩],
          seen_uids := st.seen_uids ++ ["102"] },
        ⟨["102"], ["102"]⟩) := by
    rw [run_items, if_pos h101]
    rw [run_items, if_neg (by simp [h102])]
    rw [process_single_email, if_neg (by simp [h102]), hfetch]
    simp only [hparse]
    rw [run_items]
    simp [mark_processed, h102, Trace.append, Trace.nil]
  refine ⟨?_, ?_, ?_⟩ <;>
    simp [run_once, hconn, hsearch, hrun]

/-- The concatenation of a list of payloads, each followed by the `"\n"` the
extraction loop appends. -/
def concat_payloads : List String → String
  | [] => ""
  | t :: rest => t ++ "\n" ++ concat_payloads rest

/-- Folding `extract_body_step` from an arbitrary accumulator prepends the
accumulator to both components. -/
lemma extract_body_foldl_acc (parts : List MimePart) (acc : String × String) :
    parts.foldl extract_body_step acc =
      (acc.1 ++ (parts.foldl extract_body_step ("", "")).1,
        acc.2 ++ (parts.foldl extract_body_step ("", "")).2) := by
  induction parts generalizing acc with
  | nil => simp
  | cons p rest ih =>
    rw [List.foldl_cons, List.foldl_cons, ih (extract_body_step acc p),
      ih (extract_body_step ("", "") p)]
    unfold extract_body_step
    split
    · simp
    · rcases hpl : p.payload with _ | text
      · simp
      · by_cases h1 : p.ctype == "text/plain"
        · simp [h1, String.append_assoc]
        · by_cases h2 : p.ctype == "text/html" <;>
            simp [h1, h2, String.append_assoc]

/-- The HTML accumulator of the extraction loop is exactly the concatenation
of the decodable non-attachment `text/html` payloads, each followed by
`"\n"`. -/
lemma extract_body_parts_html (parts : List MimePart) :
    (extract_body_parts parts).2 = concat_payloads (html_payloads parts) := by
  induction parts with
  | nil => simp [extract_body_parts, html_payloads, concat_payloads]
  | cons p rest ih =>
    simp only [extract_body_parts, html_payloads] at ih ⊢
    rw [show List.foldl extract_body_step ("", "") (p :: rest) =
        List.foldl extract_body_step (extract_body_step ("", "") p) rest
        from rfl]
    rw [extract_body_foldl_acc rest (extract_body_step ("", "") p)]
    simp only [List.filterMap_cons]
    by_cases h0 : isAttachment p
    · simp [extract_body_step, h0, ih]
    · rcases hpl : p.payload with _ | text
      · by_cases h2 : p.ctype == "text/html" <;>
          simp [extract_body_step, h0, h2, hpl, ih]
      · by_cases h1 : p.ctype == "text/plain"
        · have h2 : ¬ p.ctype == "text/html" := by
            simp only [beq_iff_eq] at h1 ⊢
            rw [h1]
            simp
          simp [extract_body_step, h0, h1, h2, hpl, ih]
        · by_cases h2 : p.ctype == "text/html" <;>
            simp [extract_body_step, h0, h1, h2, hpl, ih, concat_payloads,
              String.append_assoc]

/-- C9, as the spec states it, is false: when a message has no plain-text
content and more than one HTML part, `parse_email` does not convert only the
first HTML part — the two-HTML-part message
`[html "a", html "b"]` yields body `"a\nb"`, not the first part `"a"`.  The
converter is the `id` instance of the abstract `htmlToText` parameter. -/
theorem c9_counterexample :
    ¬ ∀ (htmlToText : String → String) (parts : List MimePart),
        (extract_body_text parts).1 = "" →
        (extract_body_text parts).2 ≠ "" →
        ∃ fh, first_html_payload parts = some fh ∧
          derive_body_text htmlToText parts = htmlToText fh := by
  intro hclaim
  obtain ⟨fh, hfh, hd⟩ := hclaim id
    [⟨"text/html", "", some "a"⟩, ⟨"text/html", "", some "b"⟩]
    (by decide) (by decide)
  rw [show first_html_payload
        [⟨"text/html", "", some "a"⟩, ⟨"text/html", "", some "b"⟩] =
      some "a" from by decide] at hfh
  cases hfh
  rw [show derive_body_text id
        [⟨"text/html", "", some "a"⟩, ⟨"text/html", "", some "b"⟩] =
      "a\nb" from by decide] at hd
  exact absurd hd (by decide)

/-- C9 (amended): for every message whose parts yield no plain-text content
but do yield HTML content, `parse_email` derives the body by converting the
concatenation of ALL decodable non-attachment HTML parts' payloads (each
followed by a newline, then stripped) — not only the first HTML part. -/
theorem c9_html_fallback_all_parts (htmlToText : String → String)
    (parts : List MimePart) (hplain : (extract_body_text parts).1 = "")
    (hhtml : (extract_body_text parts).2 ≠ "") :
    derive_body_text htmlToText parts =
      htmlToText (pyStrip (concat_payloads (html_payloads parts))) := by
  rw [derive_body_text, if_pos ⟨hplain, hhtml⟩]
  rw [show (extract_body_text parts).2 = pyStrip (extract_body_parts parts).2
      from rfl]
  rw [extract_body_parts_html]

/-! ## Concrete instances used by the witnesses -/

/-- A parsed email for uid `"102"`. -/
def ed_w : EmailData := ⟨"Sub", "a@b", "D", "body", some "<mid>", "102"⟩

/-- An environment with connectivity up, unseen ids `["101", "102"]`, and
`"102"` fetchable and parsable. -/
def env_w : Env :=
  ⟨true, true, fun _ => false, ["101", "102"],
    fun u => if u == "102" then some [0] else none,
    fun _ u => if u == "102" then some ed_w else none,
    fun _ => "S", fun s => s ++ "#", "T", false⟩

/-- A state in which `"101"` is already recorded as processed. -/
def st_w : PipelineState := ⟨[⟨"101", "INBOX", none, "t0", "h0"⟩], [], []⟩

/-- An environment whose connection is down and whose three `connect()`
attempts all fail. -/
def env_down : Env :=
  ⟨false, false, fun _ => false, ["101"], fun _ => none, fun _ _ => none,
    fun _ => "", fun s => s, "T", false⟩

/-- The empty pipeline state. -/
def st0 : PipelineState := ⟨[], [], []⟩

/-- A runner currently in `RUNNING` with stop not requested. -/
def runner_running : RunnerSt :=
  ⟨RunnerStatus.RUNNING, true, false, none, none, 0, 0⟩

/-- A runner currently in `IDLE`. -/
def runner_idle : RunnerSt :=
  ⟨RunnerStatus.IDLE, false, false, none, none, 0, 0⟩

/-- A one-row store for the duplicate-insert witness. -/
def store_w : List ProcessedRecord := [⟨"1", "INBOX", none, "t0", "h0"⟩]

/-! ## Witnesses -/

/-- Witness for C1 at uid `"101"`, already processed in `st_w`. -/
theorem c1_idempotent_pass_witness :
    has_processed st_w.store "101" "INBOX" = true ∧
    "101" ∉ (run_once env_w st_w).2.2.1.summarized_uids ∧
    "101" ∉ (run_once env_w st_w).2.2.1.appended_uids ∧
    has_processed (run_once env_w st_w).2.1.store "101" "INBOX" = true :=
  c1_idempotent_pass env_w st_w "101" (by decide) (by decide)

/-- Witness for C2 at a short (3484-token) and a long (3485-token) input. -/
theorem c2_truncation_bound_witness :
    smart_truncate_by_token [7] (List.replicate 3484 0) MAX_BODY_TOKENS =
      List.replicate 3484 0 ∧
    (smart_truncate_by_token [7] (List.replicate 3485 0)
        MAX_BODY_TOKENS).length ≤ MAX_BODY_TOKENS + [7].length :=
  ⟨(c2_truncation_bound [7] (List.replicate 3484 0)).1
      (by norm_num [List.length_replicate, MAX_BODY_TOKENS, MAX_TOKENS,
        REPLY_TOKEN_RESERVE]),
    ((c2_truncation_bound [7] (List.replicate 3485 0)).2
      (by norm_num [List.length_replicate, MAX_BODY_TOKENS, MAX_TOKENS,
        REPLY_TOKEN_RESERVE])).2.1⟩

/-- Witness for C3: a duplicate insert on key `("INBOX", "1")` is rejected
and the one-row store keeps its invariant. -/
theorem c3_store_at_most_one_per_key_witness :
    mark_processed (fun s => s) "t1" store_w "1" none "s" "INBOX" = store_w ∧
    AtMostOnePerKey
      (mark_processed (fun s => s) "t1" store_w "1" none "s" "INBOX") ∧
    (∀ r ∈ store_w,
      r ∈ mark_processed (fun s => s) "t1" store_w "1" none "s" "INBOX") :=
  ⟨(c3_store_at_most_one_per_key (fun s => s) "t1" store_w "1" none "s"
      "INBOX").1 (by decide),
    (c3_store_at_most_one_per_key (fun s => s) "t1" store_w "1" none "s"
      "INBOX").2.1 (by simp [AtMostOnePerKey, store_w]),
    (c3_store_at_most_one_per_key (fun s => s) "t1" store_w "1" none "s"
      "INBOX").2.2.1⟩

/-- Witness for C4: a second `start()` from `RUNNING` and a `stop()` from
`IDLE` both fail without effect. -/
theorem c4_runner_state_machine_witness :
    Runner.start runner_running = (false, runner_running) ∧
    Runner.stop runner_idle true = (false, runner_idle) :=
  ⟨(c4_runner_state_machine runner_running true).2.1 rfl,
    (c4_runner_state_machine runner_idle true).2.2 rfl⟩

/-- Witness for C5 on `env_down`, whose three connect attempts all fail. -/
theorem c5_connectivity_failure_witness :
    reconnect_if_needed env_down = false ∧
    (run_once env_down st0).1.total_unseen = 0 ∧
    (run_once env_down st0).1.failed_count = -1 ∧
    (run_once env_down st0).1.failed_count < 0 ∧
    search_unseen_uids env_down = [] ∧
    (run_loop_iter env_down runner_running st0).1.status =
      RunnerStatus.ERROR ∧
    loop_continues (run_loop_iter env_down runner_running st0).1 = true :=
  c5_connectivity_failure env_down st0 runner_running (Or.inl rfl)
    (fun _ => rfl) rfl

/-- Witness for C6 at a mock endpoint answering HTTP 401. -/
theorem c6_auth_short_circuit_witness :
    summarize_email "key" "S" (fun _ => ApiResponse.httpErr 401) =
      ⟨"[API 认证失败] 邮件主题: S", 1, []⟩ :=
  c6_auth_short_circuit "key" "S" (fun _ => ApiResponse.httpErr 401)
    (by decide) (Or.inl rfl)

/-- Witness for C7 at a mock endpoint answering HTTP 429 on every attempt. -/
theorem c7_retry_termination_witness :
    summarize_email "key" "R" (fun _ => ApiResponse.httpErr 429) =
      ⟨"[API 总结失败] 邮件主题: R", 3, [2 ^ 0, 2 ^ 1, 2 ^ 2]⟩ ∧
    3 ≤ (summarize_email "key" "R"
        (fun _ => ApiResponse.httpErr 429)).sleeps.sum :=
  c7_retry_termination "key" "R" (fun _ => ApiResponse.httpErr 429)
    (by decide) (fun _ => rfl)

/-- Witness for C8 on `env_w` and `st_w`. -/
theorem c8_two_uid_scenario_witness :
    (run_once env_w st_w).1 = ⟨2, 1, 1, 0, env_w.now⟩ ∧
    (run_once env_w st_w).2.1.store = st_w.store ++
      [⟨"102", "INBOX", ed_w.message_id, env_w.now,
        env_w.sha256 (env_w.summarize ed_w)⟩] ∧
    (run_once env_w st_w).2.1.daily_log = st_w.daily_log ++
      [⟨ed_w.subject, ed_w.from_addr, ed_w.date, env_w.summarize ed_w⟩] :=
  c8_two_uid_scenario env_w st_w [0] ed_w (by decide) rfl (by decide)
    (by decide) (by decide) (by decide)

/-- Witness for the amended C9 on a message with two HTML parts and the `id`
converter. -/
theorem c9_html_fallback_all_parts_witness :
    derive_body_text id
        [⟨"text/html", "", some "a"⟩, ⟨"text/html", "", some "b"⟩] =
      id (pyStrip (concat_payloads (html_payloads
        [⟨"text/html", "", some "a"⟩, ⟨"text/html", "", some "b"⟩]))) :=
  c9_html_fallback_all_parts id
    [⟨"text/html", "", some "a"⟩, ⟨"text/html", "", some "b"⟩]
    (by decide) (by decide)

/-- Witness for C10 on `env_down` and a runner with zero counters. -/
theorem c10_sentinel_decrements_cumulative_witness :
    (get_status (run_loop_iter env_down runner_running st0).1
        10).total_failed_count =
      (get_status runner_running 10).total_failed_count - 1 ∧
    (get_status (run_loop_iter env_down runner_running st0).1
        10).total_failed_count <
      (get_status runner_running 10).total_failed_count :=
  c10_sentinel_decrements_cumulative env_down st0 runner_running 10
    (by decide)

end AiEmailSummary
